import Mathlib

/-!
Shallow embedding of the aleph UI document screen and of the entity store it
consumes.  The React/Redux view code (`DocumentScreen`, `mapStateToProps`,
`CollectionCard`) is embedded from `src/ui/src/components/DocumentScreen/index.jsx`.
The entity store behind `state.entities` and the `fetchDocument` action is not
part of the given sources (only its caller is), so it is modelled from the
specification.
-/

/-- An entity payload: a domain object carrying at least an `id` field;
further fields are opaque to the store and stand in here as an optional
title. -/
structure Payload where
  id : String
  title : Option String
deriving DecidableEq, Repr

/-- Error taxonomy of failed fetches, following the spec's error handling
design. -/
inductive FetchError where
  | networkError
  | notFoundError
  | serverError
deriving DecidableEq, Repr

/-- Per-id entity record state. -/
inductive EntityState where
  | notRequested
  | fetching
  | loaded (p : Payload)
  | failed (e : FetchError)
deriving DecidableEq, Repr

/-- Result of one network round trip. -/
inductive NetResult where
  | ok (p : Payload)
  | err (e : FetchError)
deriving DecidableEq, Repr

/-- Modelled from the spec: the entity store that backs `state.entities` and
the `fetchDocument` action (its reducer and action code is not among the
given sources).  `entities` is the normalized keyed cache; `networkCalls`
logs, in order, each id for which a network request was actually issued, so
that deduplication is observable. -/
structure Store where
  entities : String → EntityState
  networkCalls : List String

/-- Synchronous read of the record for an id. -/
def Store.get (s : Store) (i : String) : EntityState := s.entities i

/-- The store at session start: nothing requested, no network traffic. -/
def initialStore : Store := ⟨fun _ => .notRequested, []⟩

/-- Modelled from the spec: dispatching `fetch(id)`.  While `Fetching` the
in-flight operation is shared and no second call is issued; a `Loaded`
record returns immediately without a network call; otherwise the record
moves to `Fetching` and one network request is issued. -/
def fetchStart (s : Store) (i : String) : Store :=
  match s.entities i with
  | .fetching => s
  | .loaded _ => s
  | _ =>
    { entities := fun j => if j = i then .fetching else s.entities j,
      networkCalls := s.networkCalls ++ [i] }

/-- Modelled from the spec: completion of the in-flight fetch for `i`; on
success the record becomes `Loaded(payload)`, on failure `Failed(error)`.
Completion only applies to a record that is actually `Fetching`. -/
def fetchComplete (s : Store) (i : String) (r : NetResult) : Store :=
  match s.entities i with
  | .fetching =>
    { s with entities := fun j =>
        if j = i then
          (match r with
           | .ok p => .loaded p
           | .err e => .failed e)
        else s.entities j }
  | _ => s

/-- A store event: a fetch dispatch or a fetch completion. -/
inductive StoreOp where
  | start (i : String)
  | complete (i : String) (r : NetResult)

/-- The id an event concerns. -/
def StoreOp.targets : StoreOp → String
  | .start i => i
  | .complete i _ => i

/-- Apply one store event. -/
def applyOp (s : Store) : StoreOp → Store
  | .start i => fetchStart s i
  | .complete i r => fetchComplete s i r

/-- Run a sequence of store events. -/
def runOps (s : Store) (l : List StoreOp) : Store := l.foldl applyOp s

/-- The shape of a record found in `state.entities`, as the view reads it:
an `isFetching` flag plus display fields. -/
structure DocRecord where
  isFetching : Bool
  title : Option String
  file_name : Option String
deriving DecidableEq, Repr

/-- The Redux state as `mapStateToProps` reads it: absent keys are
`undefined`, represented as `none`. -/
structure ReduxState where
  entities : String → Option DocRecord

/-- Router-supplied own props: the `documentId` route parameter (possibly
`undefined`) and the location hash. -/
structure OwnProps where
  matchParamsDocumentId : Option String
  locationHash : String

/-- The props object seen by the `DocumentScreen` component. -/
structure Props where
  documentId : Option String
  document : Option DocRecord
  locationHash : String
deriving DecidableEq, Repr

/-- Props produced by `mapStateToProps`. -/
structure MappedProps where
  documentId : Option String
  document : Option DocRecord
deriving DecidableEq, Repr

/-- Redux actions dispatched by the component. -/
inductive ReduxAction where
  | fetchDocument (id : Option String)
deriving DecidableEq, Repr

/-- Embeds `mapStateToProps` from `src/ui/src/components/DocumentScreen/index.jsx`:
reads `documentId` from the route parameters and looks it up in
`state.entities` only when it is defined. -/
def mapStateToProps (state : ReduxState) (ownProps : OwnProps) : MappedProps :=
  let documentId := ownProps.matchParamsDocumentId
  let document :=
    match documentId with
    | some d => state.entities d
    | none => none
  ⟨documentId, document⟩

/-- The full props of a connected `DocumentScreen`: mapped props merged with
own props. -/
def propsOf (state : ReduxState) (ownProps : OwnProps) : Props :=
  let m := mapStateToProps state ownProps
  ⟨m.documentId, m.document, ownProps.locationHash⟩

/-- Embeds `DocumentScreen.componentDidMount`: unconditionally dispatches
`fetchDocument` for the current `documentId`. -/
def componentDidMount (p : Props) : List ReduxAction :=
  [.fetchDocument p.documentId]

/-- Embeds `DocumentScreen.componentDidUpdate`: dispatches `fetchDocument`
exactly when `documentId` differs from the previous props. -/
def componentDidUpdate (prevProps p : Props) : List ReduxAction :=
  if p.documentId ≠ prevProps.documentId then [.fetchDocument p.documentId] else []

/-- What `DocumentScreen.render` returns: the loading screen, or the document
screen built from the document record and the location hash. -/
inductive RenderResult where
  | screenLoading
  | screen (document : DocRecord) (fragId : String)
deriving DecidableEq, Repr

/-- Embeds `DocumentScreen.render`: the loading screen when the `document`
prop is `undefined` or has `isFetching` set, the document screen otherwise. -/
def DocumentScreen.render (p : Props) : RenderResult :=
  match p.document with
  | none => .screenLoading
  | some d => if d.isFetching then .screenLoading else .screen d p.locationHash

/-- Mounting the view: the actions dispatched by `componentDidMount` together
with the rendered output. -/
def mountDocumentScreen (p : Props) : List ReduxAction × RenderResult :=
  (componentDidMount p, DocumentScreen.render p)

/-- Actions dispatched by a sequence of prop updates after a mount, each
update compared against the previous props as React does. -/
def updatesDispatches (prevProps : Props) : List Props → List ReduxAction
  | [] => []
  | p :: rest => componentDidUpdate prevProps p ++ updatesDispatches p rest

/-- All actions the component dispatches across its lifecycle: mount with
`p0`, then the given sequence of updates. -/
def lifecycleDispatches (p0 : Props) (rest : List Props) : List ReduxAction :=
  componentDidMount p0 ++ updatesDispatches p0 rest

/-- The fetches mandated by id changes along a sequence of props, as a
function of the ids alone. -/
def changedFetches : Option String → List Props → List ReduxAction
  | _, [] => []
  | prev, p :: rest =>
    (if p.documentId ≠ prev then [ReduxAction.fetchDocument p.documentId] else []) ++
      changedFetches p.documentId rest

/-- The collection object as `CollectionCard.render` reads it: an `id` that
may be missing or empty (falsy), plus the display fields the card shows. -/
structure CollectionObj where
  id : Option String
  count : Nat
  summary : Option String
  updated_at : Option String
  label : String
deriving DecidableEq, Repr

/-- JavaScript falsiness of `collection.id` for an id that is a string or
missing: `undefined`, `null` or the empty string. -/
def idFalsy (o : CollectionObj) : Bool :=
  o.id = none || o.id = some ""

/-- What `CollectionCard.render` returns: an empty span, or the card built
from the collection. -/
inductive CardRender where
  | emptySpan
  | card (c : CollectionObj)
deriving DecidableEq, Repr

/-- Embeds `CollectionCard.render`: an empty span when the `collection` prop
is falsy or its `id` field is falsy, the full card otherwise. -/
def CollectionCard.render (collection : Option CollectionObj) : CardRender :=
  match collection with
  | none => .emptySpan
  | some c => if idFalsy c then .emptySpan else .card c

lemma fetchStart_eq_self_of_fetching (s : Store) (i : String)
    (h : s.entities i = .fetching) : fetchStart s i = s := by
  unfold fetchStart
  rw [h]

lemma fetchStart_eq_self_of_loaded (s : Store) (i : String) (p : Payload)
    (h : s.entities i = .loaded p) : fetchStart s i = s := by
  unfold fetchStart
  rw [h]

lemma fetchComplete_eq_self_of_loaded (s : Store) (i : String) (r : NetResult)
    (p : Payload) (h : s.entities i = .loaded p) : fetchComplete s i r = s := by
  unfold fetchComplete
  rw [h]

lemma applyOp_get_other (s : Store) (i : String) (o : StoreOp)
    (h : o.targets ≠ i) : (applyOp s o).get i = s.get i := by
  cases o with
  | start j =>
    have hji : j ≠ i := h
    show (fetchStart s j).get i = s.get i
    unfold fetchStart Store.get
    split
    case _ => rfl
    case _ => rfl
    case _ =>
      simp only []
      rw [if_neg (fun hij => hji (hij.symm))]
  | complete j r =>
    have hji : j ≠ i := h
    show (fetchComplete s j r).get i = s.get i
    unfold fetchComplete Store.get
    split
    case _ =>
      simp only []
      rw [if_neg (fun hij => hji (hij.symm))]
    case _ => rfl

lemma applyOp_loaded_stable (s : Store) (i : String) (p : Payload) (o : StoreOp)
    (h : s.get i = .loaded p) : (applyOp s o).get i = .loaded p := by
  by_cases ht : o.targets = i
  · cases o with
    | start j =>
      have hj : j = i := ht
      subst hj
      show (fetchStart s j).get j = .loaded p
      rw [fetchStart_eq_self_of_loaded s j p h]
      exact h
    | complete j r =>
      have hj : j = i := ht
      subst hj
      show (fetchComplete s j r).get j = .loaded p
      rw [fetchComplete_eq_self_of_loaded s j r p h]
      exact h
  · rw [applyOp_get_other s i o ht]
    exact h

lemma runOps_loaded_stable (s : Store) (i : String) (p : Payload) (l : List StoreOp)
    (h : s.get i = .loaded p) : (runOps s l).get i = .loaded p := by
  induction l generalizing s with
  | nil => exact h
  | cons o rest ih =>
    show (runOps (applyOp s o) rest).get i = .loaded p
    exact ih (applyOp s o) (applyOp_loaded_stable s i p o h)

lemma runOps_get_untargeted (s : Store) (i : String) (l : List StoreOp)
    (hl : ∀ o ∈ l, StoreOp.targets o ≠ i) : (runOps s l).get i = s.get i := by
  induction l generalizing s with
  | nil => rfl
  | cons o rest ih =>
    show (runOps (applyOp s o) rest).get i = s.get i
    rw [ih (applyOp s o) (fun q hq => hl q (List.mem_cons_of_mem o hq))]
    exact applyOp_get_other s i o (hl o (List.mem_cons_self o rest))

lemma fetchStart_of_notRequested (s : Store) (i : String)
    (h : s.entities i = .notRequested) :
    fetchStart s i =
      { entities := fun j => if j = i then .fetching else s.entities j,
        networkCalls := s.networkCalls ++ [i] } := by
  unfold fetchStart
  rw [h]

lemma fetchStart_of_failed (s : Store) (i : String) (e : FetchError)
    (h : s.entities i = .failed e) :
    fetchStart s i =
      { entities := fun j => if j = i then .fetching else s.entities j,
        networkCalls := s.networkCalls ++ [i] } := by
  unfold fetchStart
  rw [h]

/-- Claim C1: while a fetch for an id is in flight (`Fetching`), a second
`fetch(id)` leaves the store unchanged, issues no second network call, and
after the one completion both callers read the same result from the store. -/
theorem fetchDedup_coalesces_inflight (s : Store) (i : String) (r : NetResult)
    (h : s.get i = .fetching) :
    fetchStart s i = s ∧
    (fetchStart s i).networkCalls = s.networkCalls ∧
    (fetchComplete (fetchStart s i) i r).get i = (fetchComplete s i r).get i := by
  have he : fetchStart s i = s := fetchStart_eq_self_of_fetching s i h
  exact ⟨he, by rw [he], by rw [he]⟩

/-- Witness for C1 at a concrete store with `"doc-1"` in flight. -/
theorem fetchDedup_coalesces_inflight_witness :
    fetchStart ⟨fun j => if j = "doc-1" then .fetching else .notRequested, ["doc-1"]⟩ "doc-1" =
      ⟨fun j => if j = "doc-1" then .fetching else .notRequested, ["doc-1"]⟩ :=
  (fetchDedup_coalesces_inflight
    ⟨fun j => if j = "doc-1" then .fetching else .notRequested, ["doc-1"]⟩
    "doc-1" (.ok ⟨"doc-1", some "A"⟩) (by decide)).1

/-- Claim C2: a `fetch(id)` on a `Loaded` record returns immediately with the
store unchanged (hence no network call), and no sequence of further store
events ever invalidates a `Loaded` record. -/
theorem loaded_fetch_no_network (s : Store) (i : String) (p : Payload)
    (l : List StoreOp) (h : s.get i = .loaded p) :
    fetchStart s i = s ∧ (runOps s l).get i = .loaded p :=
  ⟨fetchStart_eq_self_of_loaded s i p h, runOps_loaded_stable s i p l h⟩

/-- Witness for C2 at a concrete store with `"doc-1"` loaded and a sequence
of later events. -/
theorem loaded_fetch_no_network_witness :
    fetchStart
        ⟨fun j => if j = "doc-1" then .loaded ⟨"doc-1", some "A"⟩ else .notRequested,
          ["doc-1"]⟩ "doc-1" =
      ⟨fun j => if j = "doc-1" then .loaded ⟨"doc-1", some "A"⟩ else .notRequested,
        ["doc-1"]⟩ ∧
    (runOps
        ⟨fun j => if j = "doc-1" then .loaded ⟨"doc-1", some "A"⟩ else .notRequested,
          ["doc-1"]⟩
        [.start "doc-1", .complete "doc-1" (.err .serverError), .start "doc-9"]).get
      "doc-1" = .loaded ⟨"doc-1", some "A"⟩ :=
  loaded_fetch_no_network
    ⟨fun j => if j = "doc-1" then .loaded ⟨"doc-1", some "A"⟩ else .notRequested, ["doc-1"]⟩
    "doc-1" ⟨"doc-1", some "A"⟩
    [.start "doc-1", .complete "doc-1" (.err .serverError), .start "doc-9"] (by decide)

/-- Claim C4: a `fetch(id)` on a `Failed` record retries: the record moves
back to `Fetching` and exactly one new network call is issued. -/
theorem failed_fetch_retries (s : Store) (i : String) (e : FetchError)
    (h : s.get i = .failed e) :
    (fetchStart s i).get i = .fetching ∧
    (fetchStart s i).networkCalls = s.networkCalls ++ [i] := by
  rw [fetchStart_of_failed s i e h]
  constructor
  · show (if i = i then EntityState.fetching else s.entities i) = .fetching
    rw [if_pos rfl]
  · rfl

/-- Witness for C4 at a concrete store with `"doc-2"` failed. -/
theorem failed_fetch_retries_witness :
    (fetchStart ⟨fun j => if j = "doc-2" then .failed .notFoundError else .notRequested,
        ["doc-2"]⟩ "doc-2").get "doc-2" = .fetching ∧
    (fetchStart ⟨fun j => if j = "doc-2" then .failed .notFoundError else .notRequested,
        ["doc-2"]⟩ "doc-2").networkCalls = ["doc-2"] ++ ["doc-2"] :=
  failed_fetch_retries
    ⟨fun j => if j = "doc-2" then .failed .notFoundError else .notRequested, ["doc-2"]⟩
    "doc-2" .notFoundError (by decide)

/-- Claim C5: starting from `NotRequested`, a dispatched fetch that completes
successfully with payload `p` leaves `get(id)` at `Loaded(p)`; with a
well-formed fetch-by-id backend the payload's `id` is the requested id. -/
theorem successful_fetch_loads_payload (s : Store) (i : String) (p : Payload)
    (h0 : s.get i = .notRequested) (hid : p.id = i) :
    (fetchComplete (fetchStart s i) i (.ok p)).get i = .loaded p ∧ p.id = i := by
  refine ⟨?_, hid⟩
  rw [fetchStart_of_notRequested s i h0]
  unfold fetchComplete Store.get
  simp

/-- Witness for C5: the spec scenario fetching `"doc-1"` with payload
`{id: "doc-1", title: "A"}` from the initial store. -/
theorem successful_fetch_loads_payload_witness :
    (fetchComplete (fetchStart initialStore "doc-1") "doc-1"
        (.ok ⟨"doc-1", some "A"⟩)).get "doc-1" = .loaded ⟨"doc-1", some "A"⟩ ∧
    ("doc-1" : String) = "doc-1" :=
  successful_fetch_loads_payload initialStore "doc-1" ⟨"doc-1", some "A"⟩ rfl rfl

/-- Claim C3: an id no store event ever targeted reads back as
`NotRequested`, and at the code level `mapStateToProps` maps an id absent
from `state.entities` to an `undefined` document prop. -/
theorem never_fetched_notRequested (l : List StoreOp) (i : String)
    (hl : ∀ o ∈ l, StoreOp.targets o ≠ i)
    (state : ReduxState) (ownProps : OwnProps)
    (hid : ownProps.matchParamsDocumentId = some i)
    (hs : state.entities i = none) :
    (runOps initialStore l).get i = .notRequested ∧
    (mapStateToProps state ownProps).document = none := by
  constructor
  · rw [runOps_get_untargeted initialStore i l hl]
    rfl
  · unfold mapStateToProps
    rw [hid]
    exact hs

/-- Witness for C3: events targeting only `"other"`, read at `"doc-1"`. -/
theorem never_fetched_notRequested_witness :
    (runOps initialStore [.start "other", .complete "other" (.err .networkError)]).get
      "doc-1" = .notRequested ∧
    (mapStateToProps ⟨fun _ => none⟩ ⟨some "doc-1", ""⟩).document = none :=
  never_fetched_notRequested
    [.start "other", .complete "other" (.err .networkError)] "doc-1"
    (by decide) ⟨fun _ => none⟩ ⟨some "doc-1", ""⟩ rfl rfl

/-- Claim C6: the mounted view renders the loading screen exactly when the
store entry for the route id is absent or marked `isFetching`; in that case
the mount dispatched a fetch for that id; otherwise it renders the document
screen for the stored record. -/
theorem render_loading_iff_absent_or_fetching (state : ReduxState)
    (ownProps : OwnProps) (i : String) (d : DocRecord)
    (hid : ownProps.matchParamsDocumentId = some i) :
    ((mountDocumentScreen (propsOf state ownProps)).2 = .screenLoading ↔
      (state.entities i = none ∨
        ∃ dd, state.entities i = some dd ∧ dd.isFetching = true)) ∧
    ((mountDocumentScreen (propsOf state ownProps)).2 = .screenLoading →
      (mountDocumentScreen (propsOf state ownProps)).1 = [.fetchDocument (some i)]) ∧
    (state.entities i = some d → d.isFetching = false →
      (mountDocumentScreen (propsOf state ownProps)).2 =
        .screen d ownProps.locationHash) := by
  have hprops : propsOf state ownProps =
      ⟨some i, state.entities i, ownProps.locationHash⟩ := by
    unfold propsOf mapStateToProps
    rw [hid]
  refine ⟨?_, ?_, ?_⟩
  · rw [hprops]
    show DocumentScreen.render ⟨some i, state.entities i, ownProps.locationHash⟩ =
        .screenLoading ↔ _
    unfold DocumentScreen.render
    cases hE : state.entities i with
    | none => simp
    | some dd =>
      cases hF : dd.isFetching with
      | true => simp [hF]
      | false => simp [hF]
  · intro _
    rw [hprops]
    rfl
  · intro hE hF
    rw [hprops]
    show DocumentScreen.render ⟨some i, state.entities i, ownProps.locationHash⟩ = _
    unfold DocumentScreen.render
    rw [hE]
    simp [hF]

/-- Witness for C6 at a state holding a fetching record for `"doc-1"`. -/
theorem render_loading_iff_absent_or_fetching_witness :
    (mountDocumentScreen
        (propsOf ⟨fun j => if j = "doc-1" then some ⟨true, none, none⟩ else none⟩
          ⟨some "doc-1", "#page-2"⟩)).2 = .screenLoading ↔
      ((fun j => if j = "doc-1" then some (⟨true, none, none⟩ : DocRecord) else none)
          "doc-1" = none ∨
        ∃ dd, (fun j => if j = "doc-1" then some (⟨true, none, none⟩ : DocRecord)
            else none) "doc-1" = some dd ∧ dd.isFetching = true) :=
  (render_loading_iff_absent_or_fetching
    ⟨fun j => if j = "doc-1" then some ⟨true, none, none⟩ else none⟩
    ⟨some "doc-1", "#page-2"⟩ "doc-1" ⟨true, none, none⟩ rfl).1

lemma updatesDispatches_eq_changedFetches (l : List Props) :
    ∀ prev : Props, updatesDispatches prev l = changedFetches prev.documentId l := by
  induction l with
  | nil => intro prev; rfl
  | cons p rest ih =>
    intro prev
    show componentDidUpdate prev p ++ updatesDispatches p rest = _
    rw [ih p]
    rfl

/-- Claim C7: across any lifecycle, the component dispatches `fetchDocument`
exactly once on mount with the initial id, and then exactly at each update
whose id differs from the previous one; the dispatches are a function of the
id sequence alone, and only `mapStateToProps` reads the Redux state. -/
theorem dispatches_on_mount_and_id_change (p0 : Props) (rest : List Props) :
    lifecycleDispatches p0 rest =
      ReduxAction.fetchDocument p0.documentId :: changedFetches p0.documentId rest := by
  show componentDidMount p0 ++ updatesDispatches p0 rest = _
  rw [updatesDispatches_eq_changedFetches rest p0]
  rfl

/-- Claim C10: a sequence of prop updates that never changes the id
dispatches no fetch action at all. -/
theorem unchanged_id_updates_dispatch_nothing (p0 : Props) (rest : List Props)
    (h : ∀ q ∈ rest, q.documentId = p0.documentId) :
    updatesDispatches p0 rest = [] := by
  induction rest generalizing p0 with
  | nil => rfl
  | cons p tail ih =>
    have hp : p.documentId = p0.documentId := h p (List.mem_cons_self p tail)
    show componentDidUpdate p0 p ++ updatesDispatches p tail = []
    rw [componentDidUpdate, if_neg (by simp [hp])]
    rw [ih p (fun q hq => (h q (List.mem_cons_of_mem p hq)).trans hp.symm)]
    rfl

/-- Witness for C10: three updates with the same id dispatch nothing. -/
theorem unchanged_id_updates_dispatch_nothing_witness :
    updatesDispatches ⟨some "doc-1", none, ""⟩
      [⟨some "doc-1", none, ""⟩, ⟨some "doc-1", some ⟨true, none, none⟩, "#a"⟩,
        ⟨some "doc-1", some ⟨false, some "T", none⟩, "#b"⟩] = [] :=
  unchanged_id_updates_dispatch_nothing ⟨some "doc-1", none, ""⟩
    [⟨some "doc-1", none, ""⟩, ⟨some "doc-1", some ⟨true, none, none⟩, "#a"⟩,
      ⟨some "doc-1", some ⟨false, some "T", none⟩, "#b"⟩] (by decide)

/-- Claim C8: with an undefined `documentId` route parameter,
`mapStateToProps` yields an `undefined` document prop, and its result does
not depend on `state.entities` at all (no lookup with an undefined key). -/
theorem mapStateToProps_undefined_id_safe (s1 s2 : ReduxState) (ownProps : OwnProps)
    (h : ownProps.matchParamsDocumentId = none) :
    (mapStateToProps s1 ownProps).document = none ∧
    mapStateToProps s1 ownProps = mapStateToProps s2 ownProps := by
  unfold mapStateToProps
  rw [h]
  exact ⟨rfl, rfl⟩

/-- Witness for C8 with two states that disagree everywhere. -/
theorem mapStateToProps_undefined_id_safe_witness :
    (mapStateToProps ⟨fun _ => some ⟨true, none, none⟩⟩ ⟨none, "#x"⟩).document = none ∧
    mapStateToProps ⟨fun _ => some ⟨true, none, none⟩⟩ ⟨none, "#x"⟩ =
      mapStateToProps ⟨fun _ => none⟩ ⟨none, "#x"⟩ :=
  mapStateToProps_undefined_id_safe ⟨fun _ => some ⟨true, none, none⟩⟩
    ⟨fun _ => none⟩ ⟨none, "#x"⟩ rfl

/-- Claim C9: when the `collection` prop is falsy or its `id` field is falsy,
`CollectionCard.render` returns the empty span, whatever the values of every
other field of the collection. -/
theorem collectionCard_falsy_empty_span (c : Option CollectionObj)
    (h : c = none ∨ ∃ o, c = some o ∧ idFalsy o = true) :
    CollectionCard.render c = .emptySpan := by
  cases h with
  | inl hn => rw [hn]; rfl
  | inr he =>
    obtain ⟨o, hc, hf⟩ := he
    subst hc
    simp [CollectionCard.render, hf]

/-- Witness for C9: a collection with an empty id and arbitrary other
fields renders as the empty span. -/
theorem collectionCard_falsy_empty_span_witness :
    CollectionCard.render
      (some ⟨some "", 42, some "a summary", some "2018-01-01", "Leaks"⟩) = .emptySpan :=
  collectionCard_falsy_empty_span
    (some ⟨some "", 42, some "a summary", some "2018-01-01", "Leaks"⟩)
    (Or.inr ⟨⟨some "", 42, some "a summary", some "2018-01-01", "Leaks"⟩, rfl, by decide⟩)
